import Mathlib

/-!
Verification of the mupen64plus-input-gca plugin (`src/lib.rs`).

The development embeds, as Lean functions and a small operational model:

* the per-port controller state consumed by `read_keys_from_adapter`
  (fields as read by `src/lib.rs`; the connection classification of the
  `gca` module is modelled from the spec, see `Connection`);
* the pure mapping `read_keys_from_adapter` (lines 301-386 of
  `src/lib.rs`): C-stick banding, main-stick circular deadzone, trigger
  thresholds and the OR-accumulation of button bits into the `BUTTONS`
  value;
* the plugin lifecycle (`PluginStartup` lines 115-133, `PluginShutdown`
  lines 142-148, and the adapter polling thread lines 120-133) as a
  state-transition system over a `Config` record, with the mutex-guarded
  wholesale store `*last_state.lock().unwrap() = gc_adapter.read()`
  modelled as a single atomic transition.
-/

/-- Modelled from the spec: the `gca` module's connection classification
(`connection: enum {Disconnected, Wired, Wireless}`) is not under `src/`;
only `src/lib.rs` is.  A port is connected iff its classification is not
`Disconnected`. -/
inductive Connection where
  | Disconnected
  | Wired
  | Wireless
  deriving DecidableEq, Repr

/-- The per-port controller state, with exactly the fields that
`read_keys_from_adapter` in `src/lib.rs` reads from
`input_state.controller_state(control)`.  Analog bytes are `u8`, carried
as `Nat` (a byte is a value `< 256`). -/
structure ControllerState where
  a : Bool
  b : Bool
  x : Bool
  y : Bool
  start : Bool
  l : Bool
  r : Bool
  z : Bool
  up : Bool
  down : Bool
  left : Bool
  right : Bool
  stick_x : Nat
  stick_y : Nat
  substick_x : Nat
  substick_y : Nat
  trigger_left : Nat
  trigger_right : Nat
  deriving DecidableEq, Repr

/-- One port of the adapter: its connection classification plus the
controller state.  The connection field is modelled from the spec (§3
PortState); the rest is read directly by `src/lib.rs`. -/
structure PortState where
  connection : Connection
  state : ControllerState
  deriving DecidableEq, Repr

/-- Modelled from the spec: `InputState` is an "ordered collection of
exactly 4 PortState entries, indexed by port number (0-3)" (§3); the
`gca` module defining it is not under `src/`. -/
structure InputState where
  ports : Fin 4 → PortState

/-- `InputState::controller_state(control)`: the controller state of one
port. -/
def InputState.controller_state (st : InputState) (control : Fin 4) : ControllerState :=
  (st.ports control).state

/-- Modelled from the spec: `InputState::is_connected` reports whether a
port's connection nibble decoded to something other than disconnected
(§4.2, §8 "Disconnected-port scenario"). -/
def InputState.is_connected (st : InputState) (control : Fin 4) : Bool :=
  decide ((st.ports control).connection ≠ Connection.Disconnected)

/-- The `BUTTONS` output written by `read_keys_from_adapter`: the `u32`
`Value` holding the digital-button bitmask, plus the two signed axis
fields (`X_AXIS`/`Y_AXIS`), modelled per the spec's `MappedButtons`
("target-format bitmask ... plus two signed axis values", axes "as two
independent signed fields"). -/
structure BUTTONS where
  value : Nat
  xAxis : Int
  yAxis : Int
  deriving DecidableEq, Repr

/-- Reinterpretation of a byte value (`< 256`) as a signed `i8`
(`as i8` in `src/lib.rs` line 329-330), widened to `Int` (`as i32`). -/
def i8_of_u8 (n : Nat) : Int :=
  if n < 128 then (n : Int) else (n : Int) - 256

/-- `s.stick_x.wrapping_add(128) as i8 as i32` (lines 329-330): wrapping
8-bit add of 128, then signed reinterpretation. -/
def signed_offset (b : Nat) : Int :=
  i8_of_u8 ((b + 128) % 256)

/-- `DEADZONE` constant, line 327. -/
def DEADZONE : Int := 40

/-- The main-stick computation of lines 328-338: signed offsets from the
two stick bytes, then the combined radial deadzone test
`x.pow(2) + y.pow(2) < DEADZONE.pow(2)`. -/
def stick_axes (s : ControllerState) : Int × Int :=
  let x := signed_offset s.stick_x
  let y := signed_offset s.stick_y
  let pos := x ^ 2 + y ^ 2
  if pos < DEADZONE ^ 2 then (0, 0) else (x, y)

/-- `let c_left = s.y || s.substick_x < 88;` (line 322). -/
def c_left (s : ControllerState) : Bool :=
  s.y || decide (s.substick_x < 88)

/-- `let c_right = s.x || s.substick_x > 168;` (line 323). -/
def c_right (s : ControllerState) : Bool :=
  s.x || decide (168 < s.substick_x)

/-- `let c_down = s.substick_y < 88;` (line 324). -/
def c_down (s : ControllerState) : Bool :=
  decide (s.substick_y < 88)

/-- `let c_up = s.substick_y > 168;` (line 325). -/
def c_up (s : ControllerState) : Bool :=
  decide (168 < s.substick_y)

/-- `read_keys_from_adapter` (lines 301-386) on one decoded `InputState`:
if the port is not connected the function returns leaving `keys`
untouched; otherwise it ORs the button bits of lines 340-383 into
`keys.Value` and overwrites the two axis fields with the deadzone-tested
stick values (lines 385-386). -/
def read_keys_from_adapter (input_state : InputState) (control : Fin 4)
    (keys : BUTTONS) : BUTTONS :=
  if input_state.is_connected control = false then keys
  else
    let s := input_state.controller_state control
    let sxy := stick_axes s
    let v := keys.value
    let v := if s.right then v ||| 0x0001 else v
    let v := if s.left then v ||| 0x0002 else v
    let v := if s.down then v ||| 0x0004 else v
    let v := if s.up then v ||| 0x0008 else v
    let v := if s.start then v ||| 0x0010 else v
    let v := if s.l || decide (148 < s.trigger_left) then v ||| 0x0020 else v
    let v := if s.b then v ||| 0x0040 else v
    let v := if s.a then v ||| 0x0080 else v
    let v := if c_right s then v ||| 0x0100 else v
    let v := if c_left s then v ||| 0x0200 else v
    let v := if c_down s then v ||| 0x0400 else v
    let v := if c_up s then v ||| 0x0800 else v
    let v := if s.r || decide (148 < s.trigger_right) then v ||| 0x1000 else v
    let v := if s.z then v ||| 0x2000 else v
    { value := v, xAxis := sxy.1, yAxis := sxy.2 }

/-- The total bitmask ORed into `keys.Value` by lines 340-383, as a
single value (each conditional contributes its mask or `0`). -/
def keys_mask (s : ControllerState) : Nat :=
  (if s.right then 0x0001 else 0) |||
  (if s.left then 0x0002 else 0) |||
  (if s.down then 0x0004 else 0) |||
  (if s.up then 0x0008 else 0) |||
  (if s.start then 0x0010 else 0) |||
  (if s.l || decide (148 < s.trigger_left) then 0x0020 else 0) |||
  (if s.b then 0x0040 else 0) |||
  (if s.a then 0x0080 else 0) |||
  (if c_right s then 0x0100 else 0) |||
  (if c_left s then 0x0200 else 0) |||
  (if c_down s then 0x0400 else 0) |||
  (if c_up s then 0x0800 else 0) |||
  (if s.r || decide (148 < s.trigger_right) then 0x1000 else 0) |||
  (if s.z then 0x2000 else 0)

lemma ite_or_eq_or_ite (c : Bool) (v m : Nat) :
    (if c then v ||| m else v) = v ||| (if c then m else 0) := by
  cases c <;> simp

lemma read_keys_value_eq (input_state : InputState) (control : Fin 4)
    (keys : BUTTONS) (hc : input_state.is_connected control = true) :
    (read_keys_from_adapter input_state control keys).value =
      keys.value ||| keys_mask (input_state.controller_state control) := by
  simp only [read_keys_from_adapter, hc, Bool.true_eq_false, if_false]
  simp only [ite_or_eq_or_ite]
  simp only [keys_mask, Nat.or_assoc]

lemma read_keys_axes_eq (input_state : InputState) (control : Fin 4)
    (keys : BUTTONS) (hc : input_state.is_connected control = true) :
    (read_keys_from_adapter input_state control keys).xAxis =
        (stick_axes (input_state.controller_state control)).1 ∧
      (read_keys_from_adapter input_state control keys).yAxis =
        (stick_axes (input_state.controller_state control)).2 := by
  constructor <;>
    simp only [read_keys_from_adapter, hc, Bool.true_eq_false, if_false]

lemma testBit_ite_mask (c : Bool) (m i : Nat) :
    (if c then m else 0).testBit i = (c && m.testBit i) := by
  cases c <;> simp

lemma keys_mask_testBit_5 (s : ControllerState) :
    (keys_mask s).testBit 5 = (s.l || decide (148 < s.trigger_left)) := by
  simp only [keys_mask, Nat.testBit_or, testBit_ite_mask]
  simp [Nat.testBit_to_div_mod]

lemma keys_mask_testBit_8 (s : ControllerState) :
    (keys_mask s).testBit 8 = c_right s := by
  simp only [keys_mask, Nat.testBit_or, testBit_ite_mask]
  simp [Nat.testBit_to_div_mod]

lemma keys_mask_testBit_9 (s : ControllerState) :
    (keys_mask s).testBit 9 = c_left s := by
  simp only [keys_mask, Nat.testBit_or, testBit_ite_mask]
  simp [Nat.testBit_to_div_mod]

lemma keys_mask_testBit_10 (s : ControllerState) :
    (keys_mask s).testBit 10 = c_down s := by
  simp only [keys_mask, Nat.testBit_or, testBit_ite_mask]
  simp [Nat.testBit_to_div_mod]

lemma keys_mask_testBit_11 (s : ControllerState) :
    (keys_mask s).testBit 11 = c_up s := by
  simp only [keys_mask, Nat.testBit_or, testBit_ite_mask]
  simp [Nat.testBit_to_div_mod]

lemma keys_mask_testBit_12 (s : ControllerState) :
    (keys_mask s).testBit 12 = (s.r || decide (148 < s.trigger_right)) := by
  simp only [keys_mask, Nat.testBit_or, testBit_ite_mask]
  simp [Nat.testBit_to_div_mod]

lemma ite_mask_lt (c : Bool) (m : Nat) (h : m < 0x4000) : (if c then m else 0) < 0x4000 := by
  cases c <;> simp [h]

lemma keys_mask_lt (s : ControllerState) : keys_mask s < 0x4000 := by
  have h : (0x4000 : Nat) = 2 ^ 14 := by decide
  rw [keys_mask, h]
  refine Nat.or_lt_two_pow ?_ (ite_mask_lt _ _ (by decide))
  refine Nat.or_lt_two_pow ?_ (ite_mask_lt _ _ (by decide))
  refine Nat.or_lt_two_pow ?_ (ite_mask_lt _ _ (by decide))
  refine Nat.or_lt_two_pow ?_ (ite_mask_lt _ _ (by decide))
  refine Nat.or_lt_two_pow ?_ (ite_mask_lt _ _ (by decide))
  refine Nat.or_lt_two_pow ?_ (ite_mask_lt _ _ (by decide))
  refine Nat.or_lt_two_pow ?_ (ite_mask_lt _ _ (by decide))
  refine Nat.or_lt_two_pow ?_ (ite_mask_lt _ _ (by decide))
  refine Nat.or_lt_two_pow ?_ (ite_mask_lt _ _ (by decide))
  refine Nat.or_lt_two_pow ?_ (ite_mask_lt _ _ (by decide))
  refine Nat.or_lt_two_pow ?_ (ite_mask_lt _ _ (by decide))
  refine Nat.or_lt_two_pow ?_ (ite_mask_lt _ _ (by decide))
  exact Nat.or_lt_two_pow (ite_mask_lt _ _ (by decide)) (ite_mask_lt _ _ (by decide))

lemma signed_offset_eq_sub (b : Nat) (hb : b < 256) :
    signed_offset b = (b : Int) - 128 := by
  unfold signed_offset i8_of_u8
  split_ifs with h1 <;> push_cast <;> omega

lemma stick_axes_eq (s : ControllerState) :
    stick_axes s =
      if signed_offset s.stick_x * signed_offset s.stick_x +
          signed_offset s.stick_y * signed_offset s.stick_y < 1600
      then (0, 0)
      else (signed_offset s.stick_x, signed_offset s.stick_y) := by
  rw [stick_axes]
  norm_num [DEADZONE, pow_two]

/-- All-neutral controller state: no buttons, sticks centred, triggers
released. -/
def neutral_state : ControllerState :=
  { a := false, b := false, x := false, y := false, start := false,
    l := false, r := false, z := false,
    up := false, down := false, left := false, right := false,
    stick_x := 128, stick_y := 128, substick_x := 128, substick_y := 128,
    trigger_left := 0, trigger_right := 0 }

/-- An input state whose four ports are all wired with the given
controller state. -/
def connected_input (s : ControllerState) : InputState :=
  ⟨fun _ => ⟨Connection.Wired, s⟩⟩

def c1_state : ControllerState :=
  { neutral_state with stick_x := 158, stick_y := 148 }

def c2_state : ControllerState :=
  { neutral_state with trigger_left := 149, trigger_right := 148 }

def c3_state : ControllerState :=
  { neutral_state with substick_x := 87, substick_y := 169 }

def c4_state : ControllerState :=
  { neutral_state with x := true, substick_x := 100, substick_y := 87 }

def c5_input : InputState :=
  ⟨fun _ => ⟨Connection.Disconnected,
    { neutral_state with a := true, trigger_left := 255, stick_x := 0 }⟩⟩

def c9_state : ControllerState :=
  { neutral_state with b := true }

def c10_state : ControllerState :=
  { neutral_state with start := true, stick_x := 200 }

/-- Claim C1: for every connected port state, each main-stick byte is
converted to a signed offset by subtracting the centre 128 (wrapping
8-bit arithmetic), and if the squared magnitude `x*x + y*y` of the
offsets is strictly below 1600 the mapped axes are exactly `(0, 0)`,
otherwise they are `(x, y)` unchanged — one combined radial test. -/
theorem C1_deadzone_radial (input : InputState) (control : Fin 4) (keys : BUTTONS)
    (s : ControllerState) (out : BUTTONS)
    (hc : input.is_connected control = true)
    (hs : s = input.controller_state control)
    (hout : out = read_keys_from_adapter input control keys)
    (hx : s.stick_x < 256) (hy : s.stick_y < 256) :
    signed_offset s.stick_x = (s.stick_x : Int) - 128 ∧
    signed_offset s.stick_y = (s.stick_y : Int) - 128 ∧
    (signed_offset s.stick_x * signed_offset s.stick_x +
        signed_offset s.stick_y * signed_offset s.stick_y < 1600 →
      out.xAxis = 0 ∧ out.yAxis = 0) ∧
    (1600 ≤ signed_offset s.stick_x * signed_offset s.stick_x +
        signed_offset s.stick_y * signed_offset s.stick_y →
      out.xAxis = signed_offset s.stick_x ∧ out.yAxis = signed_offset s.stick_y) := by
  subst hs
  subst hout
  have hax := read_keys_axes_eq input control keys hc
  refine ⟨signed_offset_eq_sub _ hx, signed_offset_eq_sub _ hy, ?_, ?_⟩
  · intro hlt
    rw [hax.1, hax.2, stick_axes_eq, if_pos hlt]
    exact ⟨rfl, rfl⟩
  · intro hge
    rw [hax.1, hax.2, stick_axes_eq, if_neg (not_lt.mpr hge)]
    exact ⟨rfl, rfl⟩

/-- Witness for C1: stick bytes `(158, 148)` give offsets `(30, 20)`,
`30*30 + 20*20 = 1300 < 1600`, so the axes collapse to `(0, 0)`. -/
theorem C1_deadzone_radial_witness :
    signed_offset c1_state.stick_x = (c1_state.stick_x : Int) - 128 ∧
    signed_offset c1_state.stick_y = (c1_state.stick_y : Int) - 128 ∧
    (signed_offset c1_state.stick_x * signed_offset c1_state.stick_x +
        signed_offset c1_state.stick_y * signed_offset c1_state.stick_y < 1600 →
      (read_keys_from_adapter (connected_input c1_state) 0 ⟨0, 0, 0⟩).xAxis = 0 ∧
      (read_keys_from_adapter (connected_input c1_state) 0 ⟨0, 0, 0⟩).yAxis = 0) ∧
    (1600 ≤ signed_offset c1_state.stick_x * signed_offset c1_state.stick_x +
        signed_offset c1_state.stick_y * signed_offset c1_state.stick_y →
      (read_keys_from_adapter (connected_input c1_state) 0 ⟨0, 0, 0⟩).xAxis =
          signed_offset c1_state.stick_x ∧
      (read_keys_from_adapter (connected_input c1_state) 0 ⟨0, 0, 0⟩).yAxis =
          signed_offset c1_state.stick_y) :=
  C1_deadzone_radial (connected_input c1_state) 0 ⟨0, 0, 0⟩ c1_state _
    (by decide) rfl rfl (by decide) (by decide)

/-- Claim C2: a shoulder trigger byte of exactly 148 does not set the
corresponding digital shoulder bit, any strictly greater value does, and
the threshold-derived bit is ORed with the physical digital shoulder
button flag (`s.l || s.trigger_left > 148` → bit `0x0020`,
`s.r || s.trigger_right > 148` → bit `0x1000`). -/
theorem C2_trigger_threshold (input : InputState) (control : Fin 4) (keys : BUTTONS)
    (s : ControllerState) (out : BUTTONS)
    (hc : input.is_connected control = true)
    (hs : s = input.controller_state control)
    (hout : out = read_keys_from_adapter input control keys) :
    (out.value.testBit 5 = (keys.value.testBit 5 || (s.l || decide (148 < s.trigger_left)))) ∧
    (out.value.testBit 12 = (keys.value.testBit 12 || (s.r || decide (148 < s.trigger_right)))) ∧
    (s.l = false → keys.value.testBit 5 = false →
      (out.value.testBit 5 = true ↔ 148 < s.trigger_left)) ∧
    (s.r = false → keys.value.testBit 12 = false →
      (out.value.testBit 12 = true ↔ 148 < s.trigger_right)) := by
  subst hs
  subst hout
  have hv := read_keys_value_eq input control keys hc
  have h5 : (read_keys_from_adapter input control keys).value.testBit 5 =
      (keys.value.testBit 5 || ((input.controller_state control).l ||
        decide (148 < (input.controller_state control).trigger_left))) := by
    rw [hv, Nat.testBit_or, keys_mask_testBit_5]
  have h12 : (read_keys_from_adapter input control keys).value.testBit 12 =
      (keys.value.testBit 12 || ((input.controller_state control).r ||
        decide (148 < (input.controller_state control).trigger_right))) := by
    rw [hv, Nat.testBit_or, keys_mask_testBit_12]
  refine ⟨h5, h12, ?_, ?_⟩
  · intro hl hk
    rw [h5, hl, hk]
    simp
  · intro hr hk
    rw [h12, hr, hk]
    simp

/-- Witness for C2: left trigger byte 149 (just above the threshold) sets
bit `0x0020`, right trigger byte 148 (exactly the threshold) does not set
bit `0x1000`. -/
theorem C2_trigger_threshold_witness :
    ((read_keys_from_adapter (connected_input c2_state) 0 ⟨0, 0, 0⟩).value.testBit 5 =
      ((0 : Nat).testBit 5 || (c2_state.l || decide (148 < c2_state.trigger_left)))) ∧
    ((read_keys_from_adapter (connected_input c2_state) 0 ⟨0, 0, 0⟩).value.testBit 12 =
      ((0 : Nat).testBit 12 || (c2_state.r || decide (148 < c2_state.trigger_right)))) ∧
    (c2_state.l = false → (0 : Nat).testBit 5 = false →
      ((read_keys_from_adapter (connected_input c2_state) 0 ⟨0, 0, 0⟩).value.testBit 5 = true ↔
        148 < c2_state.trigger_left)) ∧
    (c2_state.r = false → (0 : Nat).testBit 12 = false →
      ((read_keys_from_adapter (connected_input c2_state) 0 ⟨0, 0, 0⟩).value.testBit 12 = true ↔
        148 < c2_state.trigger_right)) :=
  C2_trigger_threshold (connected_input c2_state) 0 ⟨0, 0, 0⟩ c2_state _
    (by decide) rfl rfl

/-- Claim C3: each C-stick direction bit follows the fixed banding of the
corresponding substick byte — strictly below 88 sets the "low" bit,
strictly above 168 sets the "high" bit, and a byte in the closed band
`[88, 168]` contributes neither (for the two bits that are also
button-assisted, see C4, this is stated with the assisting button
released). -/
theorem C3_c_stick_banding (input : InputState) (control : Fin 4) (keys : BUTTONS)
    (s : ControllerState) (out : BUTTONS)
    (hc : input.is_connected control = true)
    (hs : s = input.controller_state control)
    (hout : out = read_keys_from_adapter input control keys) :
    (out.value.testBit 10 = (keys.value.testBit 10 || decide (s.substick_y < 88))) ∧
    (out.value.testBit 11 = (keys.value.testBit 11 || decide (168 < s.substick_y))) ∧
    (s.y = false →
      out.value.testBit 9 = (keys.value.testBit 9 || decide (s.substick_x < 88))) ∧
    (s.x = false →
      out.value.testBit 8 = (keys.value.testBit 8 || decide (168 < s.substick_x))) ∧
    (keys.value = 0 → 88 ≤ s.substick_y → s.substick_y ≤ 168 →
      out.value.testBit 10 = false ∧ out.value.testBit 11 = false) := by
  subst hs
  subst hout
  have hv := read_keys_value_eq input control keys hc
  have h10 : (read_keys_from_adapter input control keys).value.testBit 10 =
      (keys.value.testBit 10 ||
        decide ((input.controller_state control).substick_y < 88)) := by
    rw [hv, Nat.testBit_or, keys_mask_testBit_10, c_down]
  have h11 : (read_keys_from_adapter input control keys).value.testBit 11 =
      (keys.value.testBit 11 ||
        decide (168 < (input.controller_state control).substick_y)) := by
    rw [hv, Nat.testBit_or, keys_mask_testBit_11, c_up]
  refine ⟨h10, h11, ?_, ?_, ?_⟩
  · intro hy
    rw [hv, Nat.testBit_or, keys_mask_testBit_9, c_left, hy, Bool.false_or]
  · intro hx
    rw [hv, Nat.testBit_or, keys_mask_testBit_8, c_right, hx, Bool.false_or]
  · intro hk h88 h168
    rw [h10, h11, hk]
    simp only [Nat.zero_testBit, Bool.false_or, decide_eq_false_iff_not]
    omega

/-- Witness for C3: substick bytes `(87, 169)` — byte 87 sets the "low"
bit for the X band, byte 169 sets the "high" bit for the Y band. -/
theorem C3_c_stick_banding_witness :
    ((read_keys_from_adapter (connected_input c3_state) 0 ⟨0, 0, 0⟩).value.testBit 10 =
      ((0 : Nat).testBit 10 || decide (c3_state.substick_y < 88))) ∧
    ((read_keys_from_adapter (connected_input c3_state) 0 ⟨0, 0, 0⟩).value.testBit 11 =
      ((0 : Nat).testBit 11 || decide (168 < c3_state.substick_y))) ∧
    (c3_state.y = false →
      (read_keys_from_adapter (connected_input c3_state) 0 ⟨0, 0, 0⟩).value.testBit 9 =
        ((0 : Nat).testBit 9 || decide (c3_state.substick_x < 88))) ∧
    (c3_state.x = false →
      (read_keys_from_adapter (connected_input c3_state) 0 ⟨0, 0, 0⟩).value.testBit 8 =
        ((0 : Nat).testBit 8 || decide (168 < c3_state.substick_x))) ∧
    ((0 : Nat) = 0 → 88 ≤ c3_state.substick_y → c3_state.substick_y ≤ 168 →
      (read_keys_from_adapter (connected_input c3_state) 0 ⟨0, 0, 0⟩).value.testBit 10 = false ∧
      (read_keys_from_adapter (connected_input c3_state) 0 ⟨0, 0, 0⟩).value.testBit 11 = false) :=
  C3_c_stick_banding (connected_input c3_state) 0 ⟨0, 0, 0⟩ c3_state _
    (by decide) rfl rfl

/-- Claim C4: exactly the X and Y digital buttons additionally set
C-stick direction bits — the C-right bit is the OR of `s.x` with the
substick condition, the C-left bit the OR of `s.y` with it, and the
C-down/C-up bits depend on the substick byte alone. -/
theorem C4_button_assisted_c_bits (input : InputState) (control : Fin 4) (keys : BUTTONS)
    (s : ControllerState) (out : BUTTONS)
    (hc : input.is_connected control = true)
    (hs : s = input.controller_state control)
    (hout : out = read_keys_from_adapter input control keys) :
    (out.value.testBit 8 = (keys.value.testBit 8 || (s.x || decide (168 < s.substick_x)))) ∧
    (out.value.testBit 9 = (keys.value.testBit 9 || (s.y || decide (s.substick_x < 88)))) ∧
    (out.value.testBit 10 = (keys.value.testBit 10 || decide (s.substick_y < 88))) ∧
    (out.value.testBit 11 = (keys.value.testBit 11 || decide (168 < s.substick_y))) := by
  subst hs
  subst hout
  have hv := read_keys_value_eq input control keys hc
  refine ⟨?_, ?_, ?_, ?_⟩
  · rw [hv, Nat.testBit_or, keys_mask_testBit_8, c_right]
  · rw [hv, Nat.testBit_or, keys_mask_testBit_9, c_left]
  · rw [hv, Nat.testBit_or, keys_mask_testBit_10, c_down]
  · rw [hv, Nat.testBit_or, keys_mask_testBit_11, c_up]

/-- Witness for C4: with the X button held and the substick centred on
the X axis (byte 100, inside the dead band), the C-right bit is still
set by the button alone; substick Y byte 87 sets C-down. -/
theorem C4_button_assisted_c_bits_witness :
    ((read_keys_from_adapter (connected_input c4_state) 0 ⟨0, 0, 0⟩).value.testBit 8 =
      ((0 : Nat).testBit 8 || (c4_state.x || decide (168 < c4_state.substick_x)))) ∧
    ((read_keys_from_adapter (connected_input c4_state) 0 ⟨0, 0, 0⟩).value.testBit 9 =
      ((0 : Nat).testBit 9 || (c4_state.y || decide (c4_state.substick_x < 88)))) ∧
    ((read_keys_from_adapter (connected_input c4_state) 0 ⟨0, 0, 0⟩).value.testBit 10 =
      ((0 : Nat).testBit 10 || decide (c4_state.substick_y < 88))) ∧
    ((read_keys_from_adapter (connected_input c4_state) 0 ⟨0, 0, 0⟩).value.testBit 11 =
      ((0 : Nat).testBit 11 || decide (168 < c4_state.substick_y))) :=
  C4_button_assisted_c_bits (connected_input c4_state) 0 ⟨0, 0, 0⟩ c4_state _
    (by decide) rfl rfl

/-- Claim C5: for a port whose connection state is `Disconnected`, the
query reports the port as not connected, `read_keys_from_adapter`
returns with the caller's `BUTTONS` untouched (so the all-zero
`BUTTONS` of `ReadController`'s `ReadKeys` path stays all-zero),
regardless of the port's button/analog bytes. -/
theorem C5_disconnected_all_zero (input : InputState) (control : Fin 4)
    (hd : (input.ports control).connection = Connection.Disconnected) :
    input.is_connected control = false ∧
    (∀ keys : BUTTONS, read_keys_from_adapter input control keys = keys) ∧
    read_keys_from_adapter input control ⟨0, 0, 0⟩ = ⟨0, 0, 0⟩ := by
  have hc : input.is_connected control = false := by
    simp [InputState.is_connected, hd]
  refine ⟨hc, fun keys => ?_, ?_⟩
  · rw [read_keys_from_adapter, if_pos hc]
  · rw [read_keys_from_adapter, if_pos hc]

/-- Witness for C5: a disconnected port whose (ignored) bytes have the A
button held, left trigger at 255 and the stick hard left still maps to
the untouched all-zero result. -/
theorem C5_disconnected_all_zero_witness :
    c5_input.is_connected 0 = false ∧
    (∀ keys : BUTTONS, read_keys_from_adapter c5_input 0 keys = keys) ∧
    read_keys_from_adapter c5_input 0 ⟨0, 0, 0⟩ = ⟨0, 0, 0⟩ :=
  C5_disconnected_all_zero c5_input 0 rfl

/-- The end-to-end scenario state of claim C6: connected, button A held,
stick bytes `(128, 128)`, left trigger byte 200, everything else
neutral. -/
def c6_state : ControllerState :=
  { neutral_state with a := true, trigger_left := 200 }

/-- The four-port input state of claim C6 (port 0 carries `c6_state`). -/
def c6_input : InputState :=
  connected_input c6_state

/-- Claim C6: the scenario {connected, A pressed, stick_x=128,
stick_y=128, trigger_left=200, rest neutral} maps to the A bit
(`0x0080`) set, the shoulder bit (`0x0020`, since `200 > 148`) set, no
other button bits (`Value = 0x00A0`), and axes exactly `(0, 0)`. -/
theorem C6_end_to_end_scenario :
    c6_input.is_connected 0 = true ∧
    (read_keys_from_adapter c6_input 0 ⟨0, 0, 0⟩).value = 0x00A0 ∧
    (read_keys_from_adapter c6_input 0 ⟨0, 0, 0⟩).value.testBit 7 = true ∧
    (read_keys_from_adapter c6_input 0 ⟨0, 0, 0⟩).value.testBit 5 = true ∧
    (read_keys_from_adapter c6_input 0 ⟨0, 0, 0⟩).xAxis = 0 ∧
    (read_keys_from_adapter c6_input 0 ⟨0, 0, 0⟩).yAxis = 0 := by
  decide

/-- Claim C10: for every initial `BUTTONS` value and every connected
port, the mapping only ORs bits at the digital-button positions
(`0x0001` through `0x2000`, i.e. below `0x4000`) into the value — every
bit already set stays set — while the axis fields are overwritten with
the deadzone-tested stick values. -/
theorem C10_or_only_and_axes_overwrite (input : InputState) (control : Fin 4)
    (keys : BUTTONS) (s : ControllerState) (out : BUTTONS)
    (hc : input.is_connected control = true)
    (hs : s = input.controller_state control)
    (hout : out = read_keys_from_adapter input control keys) :
    out.value = keys.value ||| keys_mask s ∧
    keys_mask s < 0x4000 ∧
    (∀ i : Nat, keys.value.testBit i = true → out.value.testBit i = true) ∧
    out.xAxis = (stick_axes s).1 ∧
    out.yAxis = (stick_axes s).2 := by
  subst hs
  subst hout
  have hv := read_keys_value_eq input control keys hc
  have hax := read_keys_axes_eq input control keys hc
  refine ⟨hv, keys_mask_lt _, ?_, hax.1, hax.2⟩
  intro i hi
  rw [hv, Nat.testBit_or, hi, Bool.true_or]

/-- Witness for C10: with Start held, stick_x byte 200 and an initial
`BUTTONS` value `0x2001`, the initially-set bits survive and the axes
are overwritten. -/
theorem C10_or_only_and_axes_overwrite_witness :
    (read_keys_from_adapter (connected_input c10_state) 0 ⟨0x2001, 7, 7⟩).value =
      (0x2001 : Nat) ||| keys_mask c10_state ∧
    keys_mask c10_state < 0x4000 ∧
    (∀ i : Nat, (0x2001 : Nat).testBit i = true →
      (read_keys_from_adapter (connected_input c10_state) 0 ⟨0x2001, 7, 7⟩).value.testBit i = true) ∧
    (read_keys_from_adapter (connected_input c10_state) 0 ⟨0x2001, 7, 7⟩).xAxis =
      (stick_axes c10_state).1 ∧
    (read_keys_from_adapter (connected_input c10_state) 0 ⟨0x2001, 7, 7⟩).yAxis =
      (stick_axes c10_state).2 :=
  C10_or_only_and_axes_overwrite (connected_input c10_state) 0 ⟨0x2001, 7, 7⟩ c10_state _
    (by decide) rfl rfl

/-- `m64p_error` return values used by the embedded entry points. -/
inductive M64Error where
  | success
  | alreadyInit
  | incompatible
  | inputInvalid
  | pluginFail
  deriving DecidableEq, Repr

/-- Startup-time events of `PluginStartup` (lines 115-133): seeding
`LAST_INPUT_STATE` with the initial adapter read, and spawning the
polling thread. -/
inductive StartupEvent where
  | seedCache
  | spawnPoll
  deriving DecidableEq, Repr

/-- Program counter of the adapter polling thread (lines 120-133):
not yet spawned; about to test `ADAPTER_READ_THREAD`; blocked in
`gc_adapter.read()`; holding the freshly read state `v` and about to
store it (the mutex-guarded assignment); or exited. -/
inductive PollPc where
  | notStarted
  | check
  | reading
  | storing (v : InputState)
  | done

/-- Global state of the plugin lifecycle model: the two statics
`ADAPTER_READ_THREAD` and `LAST_INPUT_STATE` of `src/lib.rs` (the cell
is `none` before `PluginStartup` seeds it), the polling thread's program
counter, the queue of reports the adapter will deliver, the ghost log of
published states, and the startup event log. -/
structure Config where
  adapter_read_thread : Bool
  last_input_state : Option InputState
  pc : PollPc
  pending : List InputState
  published : List InputState
  events : List StartupEvent

/-- A consumer's view of the cache (the locked read at lines 302-312). -/
def snapshot (c : Config) : Option InputState :=
  c.last_input_state

/-- The consumer query path (`GetKeys` → `read_keys_from_adapter`): it
first takes a cache snapshot and then maps it; `none` would mean the
cell was observed before seeding. -/
def query_keys (c : Config) (control : Fin 4) (keys : BUTTONS) : Option BUTTONS :=
  (snapshot c).map fun st => read_keys_from_adapter st control keys

/-- `LAST_INPUT_STATE.set(Arc::new(Mutex::new(gc_adapter.read())))`
(lines 115-117): seed the cache with the initial decoded read. -/
def seed_cache (v : InputState) (c : Config) : Config :=
  { c with last_input_state := some v,
           events := c.events ++ [StartupEvent.seedCache] }

/-- `thread::spawn(move || ...)` (line 120): the polling thread becomes
runnable at its flag check. -/
def spawn_poll (c : Config) : Config :=
  { c with pc := PollPc.check,
           events := c.events ++ [StartupEvent.spawnPoll] }

/-- The tail of `PluginStartup` (lines 115-133): seed the cache, then
spawn the polling thread, in that order. -/
def plugin_startup (v : InputState) (c : Config) : Config :=
  spawn_poll (seed_cache v c)

/-- `PluginShutdown` (lines 142-148): store `false` into
`ADAPTER_READ_THREAD` and immediately return `M64ERR_SUCCESS`. -/
def plugin_shutdown (c : Config) : Config × M64Error :=
  ({ c with adapter_read_thread := false }, M64Error.success)

/-- One interleaved transition of the system: the polling thread's loop
(lines 123-130) — flag check, blocking adapter read, and the
mutex-guarded wholesale store `*last_state.lock().unwrap() =
gc_adapter.read()`, which the lock makes a single atomic replacement —
or a `PluginShutdown` call by the host. -/
inductive PollStep : Config → Config → Prop where
  | check_true (c : Config) (h : c.pc = PollPc.check)
      (hf : c.adapter_read_thread = true) :
      PollStep c { c with pc := PollPc.reading }
  | check_false (c : Config) (h : c.pc = PollPc.check)
      (hf : c.adapter_read_thread = false) :
      PollStep c { c with pc := PollPc.done }
  | read_adapter (c : Config) (v : InputState) (rest : List InputState)
      (h : c.pc = PollPc.reading) (hp : c.pending = v :: rest) :
      PollStep c { c with pc := PollPc.storing v, pending := rest }
  | publish (c : Config) (v : InputState) (h : c.pc = PollPc.storing v) :
      PollStep c { c with pc := PollPc.check,
                          last_input_state := some v,
                          published := c.published ++ [v] }
  | shutdown (c : Config) : PollStep c (plugin_shutdown c).1

/-- Reachability under interleaved polling/shutdown transitions. -/
def Reachable : Config → Config → Prop :=
  Relation.ReflTransGen PollStep

lemma pollStep_preserves_isSome {c c' : Config} (h : PollStep c c')
    (hs : c.last_input_state.isSome = true) :
    c'.last_input_state.isSome = true := by
  cases h <;> simp_all [plugin_shutdown]

lemma reachable_isSome {c c' : Config} (h : Reachable c c')
    (hs : c.last_input_state.isSome = true) :
    c'.last_input_state.isSome = true := by
  induction h with
  | refl => exact hs
  | tail _ hstep ih => exact pollStep_preserves_isSome hstep ih

/-- A pre-startup configuration: flag raised (its static initializer is
`AtomicBool::new(true)`), cache unseeded, thread not spawned. -/
def init_config : Config :=
  { adapter_read_thread := true, last_input_state := none,
    pc := PollPc.notStarted, pending := [], published := [], events := [] }

/-- Claim C7: `PluginStartup` seeds the cache with the initial adapter
read synchronously, strictly before spawning the polling thread (the
event log records seeding first), and from the post-startup
configuration every reachable state has a defined snapshot, so no query
ever observes an absent state. -/
theorem C7_seeded_before_spawn (v : InputState) (c0 : Config)
    (h0 : c0.events = []) :
    (plugin_startup v c0).events = [StartupEvent.seedCache, StartupEvent.spawnPoll] ∧
    (seed_cache v c0).last_input_state = some v ∧
    (plugin_startup v c0).last_input_state = some v ∧
    (∀ s, Reachable (plugin_startup v c0) s →
      (snapshot s).isSome = true ∧
      ∀ (control : Fin 4) (keys : BUTTONS),
        (query_keys s control keys).isSome = true) := by
  refine ⟨by simp [plugin_startup, spawn_poll, seed_cache, h0], rfl, rfl, ?_⟩
  intro s hr
  have hsome : s.last_input_state.isSome = true := reachable_isSome hr rfl
  refine ⟨hsome, fun control keys => ?_⟩
  simp [query_keys, snapshot, Option.isSome_map, hsome]

/-- Witness for C7: starting from the pre-startup configuration with a
neutral first read, the event log is `[seedCache, spawnPoll]` and every
reachable state has a defined snapshot. -/
theorem C7_seeded_before_spawn_witness :
    (plugin_startup (connected_input neutral_state) init_config).events =
      [StartupEvent.seedCache, StartupEvent.spawnPoll] ∧
    (seed_cache (connected_input neutral_state) init_config).last_input_state =
      some (connected_input neutral_state) ∧
    (plugin_startup (connected_input neutral_state) init_config).last_input_state =
      some (connected_input neutral_state) ∧
    (∀ s, Reachable (plugin_startup (connected_input neutral_state) init_config) s →
      (snapshot s).isSome = true ∧
      ∀ (control : Fin 4) (keys : BUTTONS),
        (query_keys s control keys).isSome = true) :=
  C7_seeded_before_spawn (connected_input neutral_state) init_config rfl

/-- Seed value for the C8 trace: the initial adapter read. -/
def c8_seed : InputState := connected_input neutral_state

/-- The next report the adapter will deliver in the C8 trace. -/
def c8_next : InputState := connected_input c9_state

/-- The post-startup configuration of the C8 trace: one pending adapter
report. -/
def c8_start : Config :=
  plugin_startup c8_seed { init_config with pending := [c8_next] }

/-- A configuration whose polling thread is at its flag check after the
flag was lowered, used to witness the loop-exit step. -/
def c8_stop : Config :=
  { adapter_read_thread := false, last_input_state := some c8_seed,
    pc := PollPc.check, pending := [], published := [], events := [] }

/-- Claim C8: the polling loop exits only from its flag check at the
start of an iteration with the flag lowered; `PluginShutdown` merely
stores `false` into the flag and returns `M64ERR_SUCCESS` immediately,
touching nothing else; and there is an interleaving in which shutdown
has returned while the polling thread is still mid-iteration — which it
then finishes (its store still publishes) before exiting. -/
theorem C8_cooperative_termination (c c' : Config)
    (hstep : PollStep c c') (hnd : c.pc ≠ PollPc.done) (hd : c'.pc = PollPc.done) :
    (c.pc = PollPc.check ∧ c.adapter_read_thread = false) ∧
    (∀ g : Config,
      (plugin_shutdown g).2 = M64Error.success ∧
      (plugin_shutdown g).1.adapter_read_thread = false ∧
      (plugin_shutdown g).1.last_input_state = g.last_input_state ∧
      (plugin_shutdown g).1.pc = g.pc ∧
      (plugin_shutdown g).1.pending = g.pending ∧
      (plugin_shutdown g).1.published = g.published) ∧
    (∃ s, Reachable c8_start s ∧ s.adapter_read_thread = false ∧
      s.pc ≠ PollPc.done ∧
      ∃ s2, PollStep s s2 ∧ snapshot s2 = some c8_next ∧ s2.pc = PollPc.check) := by
  refine ⟨?_, fun g => ⟨rfl, rfl, rfl, rfl, rfl, rfl⟩, ?_⟩
  · cases hstep with
    | check_true h hf => exact PollPc.noConfusion hd
    | check_false h hf => exact ⟨h, hf⟩
    | read_adapter v rest h hp => exact PollPc.noConfusion hd
    | publish v h => exact PollPc.noConfusion hd
    | shutdown => exact absurd hd hnd
  · refine ⟨{ adapter_read_thread := false, last_input_state := some c8_seed,
              pc := PollPc.storing c8_next, pending := [], published := [],
              events := [StartupEvent.seedCache, StartupEvent.spawnPoll] },
      ?_, rfl, fun hcon => PollPc.noConfusion hcon,
      ⟨_, PollStep.publish _ c8_next rfl, rfl, rfl⟩⟩
    have h1 : PollStep c8_start
        { adapter_read_thread := true, last_input_state := some c8_seed,
          pc := PollPc.reading, pending := [c8_next], published := [],
          events := [StartupEvent.seedCache, StartupEvent.spawnPoll] } :=
      PollStep.check_true c8_start rfl rfl
    have h2 : PollStep
        { adapter_read_thread := true, last_input_state := some c8_seed,
          pc := PollPc.reading, pending := [c8_next], published := [],
          events := [StartupEvent.seedCache, StartupEvent.spawnPoll] }
        { adapter_read_thread := true, last_input_state := some c8_seed,
          pc := PollPc.storing c8_next, pending := [], published := [],
          events := [StartupEvent.seedCache, StartupEvent.spawnPoll] } :=
      PollStep.read_adapter _ c8_next [] rfl rfl
    have h3 : PollStep
        { adapter_read_thread := true, last_input_state := some c8_seed,
          pc := PollPc.storing c8_next, pending := [], published := [],
          events := [StartupEvent.seedCache, StartupEvent.spawnPoll] }
        { adapter_read_thread := false, last_input_state := some c8_seed,
          pc := PollPc.storing c8_next, pending := [], published := [],
          events := [StartupEvent.seedCache, StartupEvent.spawnPoll] } :=
      PollStep.shutdown _
    exact Relation.ReflTransGen.tail
      (Relation.ReflTransGen.tail (Relation.ReflTransGen.single h1) h2) h3

/-- Witness for C8: the loop-exit step out of `c8_stop` (flag already
lowered, thread at its check). -/
theorem C8_cooperative_termination_witness :
    (c8_stop.pc = PollPc.check ∧ c8_stop.adapter_read_thread = false) ∧
    (∀ g : Config,
      (plugin_shutdown g).2 = M64Error.success ∧
      (plugin_shutdown g).1.adapter_read_thread = false ∧
      (plugin_shutdown g).1.last_input_state = g.last_input_state ∧
      (plugin_shutdown g).1.pc = g.pc ∧
      (plugin_shutdown g).1.pending = g.pending ∧
      (plugin_shutdown g).1.published = g.published) ∧
    (∃ s, Reachable c8_start s ∧ s.adapter_read_thread = false ∧
      s.pc ≠ PollPc.done ∧
      ∃ s2, PollStep s s2 ∧ snapshot s2 = some c8_next ∧ s2.pc = PollPc.check) :=
  C8_cooperative_termination c8_stop { c8_stop with pc := PollPc.done }
    (PollStep.check_false c8_stop rfl rfl) (fun h => PollPc.noConfusion h) rfl

/-- The cache-consistency invariant for C9: every value readable from
the cache, pending in the adapter queue, held by the thread
mid-iteration, or logged as published is one of the wholesale states
(the seed or a complete delivered report) — never a recombination. -/
def CacheInv (v0 : InputState) (pend : List InputState) (s : Config) : Prop :=
  (∀ w, s.last_input_state = some w → w = v0 ∨ w ∈ pend) ∧
  (∀ v, s.pc = PollPc.storing v → v ∈ pend) ∧
  (∀ u, u ∈ s.pending → u ∈ pend) ∧
  (∀ u, u ∈ s.published → u ∈ pend)

lemma cacheInv_step (v0 : InputState) (pend : List InputState) {c c' : Config}
    (h : PollStep c c') (hi : CacheInv v0 pend c) : CacheInv v0 pend c' := by
  obtain ⟨h1, h2, h3, h4⟩ := hi
  cases h with
  | check_true hpc hf =>
      refine ⟨h1, ?_, h3, h4⟩
      intro v hv
      cases hv
  | check_false hpc hf =>
      refine ⟨h1, ?_, h3, h4⟩
      intro v hv
      cases hv
  | read_adapter v rest hpc hp =>
      refine ⟨h1, ?_, ?_, h4⟩
      · intro w hw
        injection hw with hvw
        exact h3 w (by rw [hp, hvw]; exact List.mem_cons_self _ _)
      · intro u hu
        exact h3 u (by rw [hp]; exact List.mem_cons_of_mem _ hu)
  | publish v hpc =>
      refine ⟨?_, ?_, h3, ?_⟩
      · intro w hw
        injection hw with hvw
        exact Or.inr (hvw ▸ h2 v hpc)
      · intro w hw
        cases hw
      · intro u hu
        rcases List.mem_append.mp hu with h | h
        · exact h4 u h
        · rw [List.mem_singleton] at h
          exact h ▸ h2 v hpc
  | shutdown =>
      exact ⟨h1, h2, h3, h4⟩

lemma cacheInv_startup (v0 : InputState) (pend : List InputState) (c0 : Config)
    (h0 : c0.pending = pend) (hpub : c0.published = []) :
    CacheInv v0 pend (plugin_startup v0 c0) := by
  refine ⟨?_, ?_, ?_, ?_⟩
  · intro w hw
    injection hw with hvw
    exact Or.inl hvw.symm
  · intro v hv
    cases hv
  · intro u hu
    rw [show (plugin_startup v0 c0).pending = c0.pending from rfl, h0] at hu
    exact hu
  · intro u hu
    rw [show (plugin_startup v0 c0).published = c0.published from rfl, hpub] at hu
    cases hu

/-- Claim C9: in every interleaving from a post-startup configuration,
each publish replaces the cache wholesale (one atomic mutex-guarded
store of a complete decoded state), so every snapshot any consumer can
take is either the seed state or one complete delivered report — never
a state mixing fields from two different publishes; likewise every
logged publish is one complete delivered report. -/
theorem C9_wholesale_publish_no_tearing (v0 : InputState) (pend : List InputState)
    (c0 s : Config) (h0 : c0.pending = pend) (hpub : c0.published = [])
    (hr : Reachable (plugin_startup v0 c0) s) :
    (∀ w, snapshot s = some w → w = v0 ∨ w ∈ pend) ∧
    (∀ u, u ∈ s.published → u ∈ pend) := by
  have hinv : CacheInv v0 pend s := by
    induction hr with
    | refl => exact cacheInv_startup v0 pend c0 h0 hpub
    | tail _ hstep ih => exact cacheInv_step v0 pend hstep ih
  exact ⟨hinv.1, hinv.2.2.2⟩

/-- Witness for C9: immediately after startup with seed `c9_state` and
no pending reports, the snapshot is the seed and nothing is published. -/
theorem C9_wholesale_publish_no_tearing_witness :
    (∀ w, snapshot (plugin_startup (connected_input c9_state) init_config) = some w →
      w = connected_input c9_state ∨ w ∈ ([] : List InputState)) ∧
    (∀ u, u ∈ (plugin_startup (connected_input c9_state) init_config).published →
      u ∈ ([] : List InputState)) :=
  C9_wholesale_publish_no_tearing (connected_input c9_state) [] init_config _
    rfl rfl Relation.ReflTransGen.refl
